import Mathlib

/-!
Verification development for the GoTodo smoke-test scripts
(`scripts/api_smoke_test.py` and `scripts/api_smoke_test_recurrence.py`).

The scripts are thin HTTP clients plus sequential assertions; the server they
drive is not part of the repository.  We embed the pure content of the
scripts: request-path construction, the status/shape checks each test step
performs (a step is modelled as a function from the observed responses to a
Bool, `true` meaning the step raises no assertion error), and the helper
`expect_status`.  Raising `TestFailure`/an assertion error is modelled as an
`Option String` (the message) or as the step function returning `false`.
Python byte strings are `List Nat` (each entry one byte) and
`bytes.decode("utf-8")` is modelled by an explicit UTF-8 decoder, in both its
strict form (raising on invalid input, modelled as `Option`) and its
`errors="replace"` form.  Server-side behaviour that the repository does not
contain (the recurrence engine) is modelled from the specification; every
such definition is marked `Modelled from the spec:`.
-/

namespace GoTodo

/-! ## UTF-8 decoding

Models Python `bytes.decode("utf-8")`.  `utf8Chunk` reads one scalar value
from the head of a byte list, returning the decoded code point (or `none` on
a malformed sequence) together with the number of bytes consumed; on a
malformed sequence the consumed count is the length of the maximal valid
prefix of a sequence (at least one byte), matching CPython's
"replace" error handler, which emits one U+FFFD per maximal invalid subpart.
-/

/-- A UTF-8 continuation byte. -/
def isCont (b : Nat) : Bool := 0x80 ≤ b && b ≤ 0xBF

/-- Read one UTF-8 sequence from the head of the list: `(some cp, k)` on a
valid sequence of `k` bytes decoding to code point `cp`, `(none, k)` when the
head is malformed and `k` bytes form its maximal valid subpart. -/
def utf8Chunk : List Nat → Option Nat × Nat
  | [] => (none, 0)
  | b :: rest =>
    if b < 0x80 then (some b, 1)
    else if b < 0xC2 then (none, 1)
    else if b ≤ 0xDF then
      match rest with
      | b2 :: _ => if isCont b2 then (some ((b - 0xC0) * 0x40 + (b2 - 0x80)), 2) else (none, 1)
      | [] => (none, 1)
    else if b ≤ 0xEF then
      let lo2 := if b == 0xE0 then 0xA0 else 0x80
      let hi2 := if b == 0xED then 0x9F else 0xBF
      match rest with
      | b2 :: rest2 =>
        if lo2 ≤ b2 && b2 ≤ hi2 then
          match rest2 with
          | b3 :: _ =>
            if isCont b3 then
              (some ((b - 0xE0) * 0x1000 + (b2 - 0x80) * 0x40 + (b3 - 0x80)), 3)
            else (none, 2)
          | [] => (none, 2)
        else (none, 1)
      | [] => (none, 1)
    else if b ≤ 0xF4 then
      let lo2 := if b == 0xF0 then 0x90 else 0x80
      let hi2 := if b == 0xF4 then 0x8F else 0xBF
      match rest with
      | b2 :: rest2 =>
        if lo2 ≤ b2 && b2 ≤ hi2 then
          match rest2 with
          | b3 :: rest3 =>
            if isCont b3 then
              match rest3 with
              | b4 :: _ =>
                if isCont b4 then
                  (some ((b - 0xF0) * 0x40000 + (b2 - 0x80) * 0x1000 +
                         (b3 - 0x80) * 0x40 + (b4 - 0x80)), 4)
                else (none, 3)
              | [] => (none, 3)
            else (none, 2)
          | [] => (none, 2)
        else (none, 1)
      | [] => (none, 1)
    else (none, 1)

/-- Strict decoding loop; `fuel` bounds the recursion (one chunk consumes at
least one byte, so `fuel = length` suffices). -/
def decodeUtf8Aux : Nat → List Nat → Option (List Char)
  | _, [] => some []
  | 0, _ :: _ => none
  | fuel + 1, b :: bs =>
    match utf8Chunk (b :: bs) with
    | (some cp, k) => (decodeUtf8Aux fuel ((b :: bs).drop k)).map (fun cs => Char.ofNat cp :: cs)
    | (none, _) => none

/-- Models `bytes.decode("utf-8")` with the default strict error handler:
`some` of the decoded string, or `none` when Python would raise
`UnicodeDecodeError`. -/
def decodeUtf8Strict (l : List Nat) : Option String :=
  (decodeUtf8Aux l.length l).map (fun cs => ⟨cs⟩)

/-- Replacement decoding loop: malformed subparts become U+FFFD. -/
def decodeReplaceAux : Nat → List Nat → List Char
  | _, [] => []
  | 0, _ :: _ => []
  | fuel + 1, b :: bs =>
    match utf8Chunk (b :: bs) with
    | (some cp, k) => Char.ofNat cp :: decodeReplaceAux fuel ((b :: bs).drop k)
    | (none, k) => Char.ofNat 0xFFFD :: decodeReplaceAux fuel ((b :: bs).drop k)

/-- Models `bytes.decode("utf-8", errors="replace")`. -/
def decodeUtf8Replace (l : List Nat) : String :=
  ⟨decodeReplaceAux l.length l⟩

/-! ## Shared small models -/

/-- A propagated Python exception.  `unicodeDecodeError` carries the bytes
that failed to decode; `other` carries the `str(e)` rendering of any other
exception. -/
inductive PyExn where
  | unicodeDecodeError (bytes : List Nat)
  | other (msg : String)
deriving DecidableEq

/-- Models `str(e)`.  The exact `UnicodeDecodeError` message text produced by
CPython is not load-bearing for any claim; we use a fixed rendering. -/
def pyStr : PyExn → String
  | .unicodeDecodeError _ => "UnicodeDecodeError: invalid utf-8"
  | .other msg => msg

/-- A JSON value, the representable content of the `json_body` argument
(`Optional[dict[str, Any]]` restricted to JSON-serialisable values, which is
what every call site passes). -/
inductive Json where
  | null
  | bool (b : Bool)
  | num (n : Int)
  | str (s : String)
  | arr (xs : List Json)
  | obj (fields : List (String × Json))

/-- Lexicographic order on the underlying character codes of two strings.
For `Z`-suffixed fixed-width RFC3339 timestamps (the format both scripts
send and receive) this coincides with chronological order, so it interprets
the specification's "strictly greater" on timestamps. -/
def rfc3339_lt (a b : String) : Bool :=
  decide (a.data.map Char.toNat < b.data.map Char.toNat)

/-! ## `api_smoke_test_recurrence.py`: `HttpClient` -/

namespace Rec

/-- `HTTPResponse` of `api_smoke_test_recurrence.py` (lines 35-44): a status
and an already-decoded body string. -/
structure HTTPResponse where
  status : Nat
  body : String
deriving DecidableEq

/-- The three possible outcomes of the `urllib.request.urlopen` call inside
`HttpClient.request`: a response object (with its status and raw body
bytes), a raised `urllib.error.HTTPError` (with its code and raw body
bytes), or any other raised exception (rendered by `str`). -/
inductive UrlOutcome where
  | success (status : Nat) (body_bytes : List Nat)
  | httpError (code : Nat) (body_bytes : List Nat)
  | otherError (msg : String)

/-- `HttpClient` of `api_smoke_test_recurrence.py` (lines 10-13); only the
configuration fields, which do not affect the control flow modelled here. -/
structure HttpClient where
  base_url : String

/-- Models `HttpClient.request` of `api_smoke_test_recurrence.py`
(lines 15-33), given the outcome of the underlying `urlopen` call.
`Except.ok` is a normal return; `Except.error` is a propagated exception.

Control flow of the source: inside the `try`, `urlopen` either returns a
response — whose body is then decoded strictly; a decode failure raises
`UnicodeDecodeError` inside the `try`, which the trailing
`except Exception` turns into `HTTPResponse(0, str(e))` — or raises.  A
raised `HTTPError` is handled by the first `except` clause, whose handler
decodes `e.read()` strictly; a decode failure there happens *inside the
except block*, where no further handler applies, so it propagates out of
`request`.  Any other exception from the `try` body is caught by
`except Exception` and becomes `HTTPResponse(0, str(e))`. -/
def HttpClient.request (_c : HttpClient) (_method _path : String)
    (_token : Option String) (_json_body : Option Json)
    (outcome : UrlOutcome) : Except PyExn HTTPResponse :=
  match outcome with
  | .success status bytes =>
    match decodeUtf8Strict bytes with
    | some body => .ok ⟨status, body⟩
    | none => .ok ⟨0, pyStr (.unicodeDecodeError bytes)⟩
  | .httpError code bytes =>
    match decodeUtf8Strict bytes with
    | some body => .ok ⟨code, body⟩
    | none => .error (.unicodeDecodeError bytes)
  | .otherError msg => .ok ⟨0, msg⟩

end Rec

/-! ## `GoToDoAPI.list_occurrences` (identical in both scripts:
`api_smoke_test.py` lines 288-295 and `api_smoke_test_recurrence.py`
lines 64-71) -/

/-- Models `"&".join(params)`. -/
def joinAmp : List String → String
  | [] => ""
  | [s] => s
  | s :: ss => s ++ "&" ++ joinAmp ss

/-- Python truthiness of an `Optional[str]`: `None` and `""` are falsy. -/
def truthyStr : Option String → Bool
  | none => false
  | some s => s ≠ ""

/-- Models `GoToDoAPI.list_occurrences` up to the request it issues: the
method and the path (with query string) passed to `HttpClient.request`.
The definition is shared because the two scripts contain character-identical
implementations of this method. -/
def list_occurrences_request (task_id : Nat) (from_time to_time : Option String) :
    String × String :=
  let path := "/api/v1/tasks/" ++ toString task_id ++ "/occurrences"
  let params : List String :=
    (if truthyStr from_time then ["from=" ++ from_time.getD ""] else []) ++
    (if truthyStr to_time then ["to=" ++ to_time.getD ""] else [])
  let path := if params ≠ [] then path ++ "?" ++ joinAmp params else path
  ("GET", path)

/-! ## `api_smoke_test.py`: `expect_status` -/

namespace Smoke

/-- `HTTPResponse` of `api_smoke_test.py` (lines 40-49): status, lower-cased
headers, and the raw body bytes. -/
structure HTTPResponse where
  status : Nat
  headers : List (String × String)
  body_bytes : List Nat

end Smoke

/-- Models `expect_status` of `api_smoke_test.py` (lines 100-106):
`some msg` models `raise TestFailure(msg)`, `none` models the normal
`None` return.  The message is the f-string
`f"{label}: expected HTTP {expected}, got {resp.status}. Body: {body_preview}"`
with `body_preview = resp.body_bytes.decode("utf-8", errors="replace")`. -/
def expect_status (resp : Smoke.HTTPResponse) (expected : Nat) (label : String) :
    Option String :=
  if resp.status ≠ expected then
    some (label ++ ": expected HTTP " ++ toString expected ++ ", got " ++
      toString resp.status ++ ". Body: " ++ decodeUtf8Replace resp.body_bytes)
  else none

/-- `msg` contains `x` as a substring. -/
def contains_str (msg x : String) : Prop :=
  ∃ pre post, msg = pre ++ x ++ post

/-! ## Test-step models

Each step function maps the responses the step observes to `true` (the step
raises no `TestFailure`/assertion error) or `false` (it does). -/

/-- An occurrence as the tests read it from the listing response JSON. -/
structure Occurrence where
  id : Nat
  due_at : String
deriving DecidableEq

/-- The occurrence-listing check of the recurrence tests
(`api_smoke_test.py` lines 738-744 and `api_smoke_test_recurrence.py`
lines 117-124): both scripts require status 200 and at least 7 occurrences,
and inspect nothing else about the listed occurrences at this step. -/
def recurrence_listing_accepts (listStatus : Nat) (occurrences : List Occurrence) : Bool :=
  listStatus == 200 && decide (7 ≤ occurrences.length)

/-- The completion step of `api_smoke_test_recurrence.py`
(`test_daily_recurrence_lifecycle`, lines 126-138): PATCH must return 200
with a non-null `completed_at`; the task GET must return 200 with a
non-null `next_due_at` that is *not equal* (`assertNotEqual`) to the
completed occurrence's `due_at`. -/
def completion_step_accepts (patchStatus : Nat) (patch_completed_at : Option String)
    (getStatus : Nat) (next_due_at : Option String) (occ0_due : String) : Bool :=
  patchStatus == 200 && patch_completed_at.isSome && getStatus == 200 &&
    next_due_at.isSome && decide (next_due_at ≠ some occ0_due)

/-- The completion step of `SmokeTestRunner.test_recurrence`
(`api_smoke_test.py` lines 746-760): as `completion_step_accepts`, except
that `next_due_at` is read with `.get(...)` under Python truthiness (so an
empty string fails the check too) and compared with `==`. -/
def completion_step_accepts_runner (patchStatus : Nat) (patch_completed_at : Option String)
    (getStatus : Nat) (next_due_at : Option String) (occ0_due : String) : Bool :=
  patchStatus == 200 && patch_completed_at.isSome && getStatus == 200 &&
    truthyStr next_due_at && decide (next_due_at ≠ some occ0_due)

/-- The statuses a server would return to user B for the two access paths to
user A's occurrence: the occurrence listing and the occurrence PATCH.  The
PATCH status is part of the world so that we can state what the suite does
*not* depend on. -/
structure WorldB where
  list_status_b : Nat
  patch_status_b : Nat
deriving DecidableEq

/-- Models `TestRecurrenceAPI.test_unauthorized_access`
(`api_smoke_test_recurrence.py` lines 162-177): after creating A's task and
logging in as B, the only request issued with B's token is the occurrence
listing, asserted to be 404; no occurrence PATCH is ever issued under B's
token, so the outcome cannot depend on `patch_status_b`. -/
def test_unauthorized_access (w : WorldB) : Bool :=
  w.list_status_b == 404

/-- Models `TestRecurrenceAPI.test_non_recurring_task_occurrences`
(`api_smoke_test_recurrence.py` lines 153-160): create a plain task
(assert 201), read `resp.json()["id"]` (a missing id raises, modelled as
failure), list its occurrences (assert 404). -/
def test_non_recurring_task_occurrences (createStatus : Nat)
    (create_body_id : Option Nat) (listStatus : Nat) : Bool :=
  if createStatus == 201 then
    match create_body_id with
    | some _ => listStatus == 404
    | none => false
  else false

/-- Models the first half of `TestRecurrenceAPI.test_invalid_recurrence_params`
(`api_smoke_test_recurrence.py` lines 140-143): create a task with
`repeat_every=1` and no `repeat_unit`, assert status 400. -/
def invalid_params_step (createStatus : Nat) : Bool :=
  createStatus == 400

/-- Models the second half of `TestRecurrenceAPI.test_invalid_recurrence_params`
(`api_smoke_test_recurrence.py` lines 145-151): the request with
`repeat_unit="decade"` is issued, but the source contains no assertion on
its response — only comments — so this step passes whatever the status. -/
def invalid_unit_step (_createStatus : Nat) : Bool :=
  true

/-! ## Server-side models (the recurrence engine is not in the repository) -/

/-- Modelled from the spec: the recurrence-rule validation of §4.1/§6 (the
server's task-creation handler is not in `src/`).  `repeat_unit` must be one
of `day`, `week`, `month`. -/
def validRepeatUnit (u : String) : Bool :=
  u == "day" || u == "week" || u == "month"

/-- Modelled from the spec: the recurrence-field validation performed by
`POST /projects/{id}/tasks` (§4.1, §6, §7; the handler is not in `src/`):
400 when `repeat_every`/`repeat_unit` are not both present or both absent,
when `repeat_every` is not positive, when `repeat_unit` is unrecognized, or
when a rule is present without `due_at`; otherwise 201. -/
def create_task_status (due_at : Option String) (repeat_every : Option Int)
    (repeat_unit : Option String) : Nat :=
  match repeat_every, repeat_unit with
  | none, none => 201
  | some n, some u =>
    if n ≤ 0 then 400
    else if !validRepeatUnit u then 400
    else if due_at.isNone then 400
    else 201
  | _, _ => 400

/-- Modelled from the spec: the Occurrence Generator of §4.2 (not in
`src/`), over integer timestamps in seconds.  Starting at the anchor
`due_at`, candidates are spaced `step` seconds apart (for a daily rule with
`repeat_every = 1`, `step = 86400`) up to and including the window end
`toT`; candidates before the window start `fromT` are discarded. -/
def generate_due_times (anchor step fromT toT : Nat) : List Nat :=
  if toT < anchor then []
  else
    ((List.range ((toT - anchor) / step + 1)).map (fun k => anchor + k * step)).filter
      (fun t => decide (fromT ≤ t))

/-- Modelled from the spec: the occurrence store after completing the first
(earliest) occurrence of a generated, ascending due-time list (§4.3, §4.4):
each occurrence is a `(due_at, completed)` pair. -/
def complete_first : List Nat → List (Nat × Bool)
  | [] => []
  | d :: rest => (d, true) :: rest.map (fun t => (t, false))

/-- Modelled from the spec: the `next_due_at` recomputation of §4.4 (not in
`src/`): the `due_at` of the earliest occurrence with `completed = false`
and `due_at ≥ now`; the input list is ordered by `due_at` ascending (§4.3),
so the earliest such occurrence is the head of the filtered list. -/
def recompute_next_due (occs : List (Nat × Bool)) (now : Nat) : Option Nat :=
  ((occs.filter (fun o => !o.2 && decide (now ≤ o.1))).map (fun o => o.1)).head?

/-! ## Helper lemmas -/

/-- A daily rule anchored at `T`, listed over the window `[T, T + 7 days]`,
generates exactly the eight due times `T, T + 1 day, …, T + 7 days`. -/
theorem generate_daily_eq (T : Nat) :
    generate_due_times T 86400 T (T + 7 * 86400) =
      [T, T + 86400, T + 2 * 86400, T + 3 * 86400, T + 4 * 86400,
       T + 5 * 86400, T + 6 * 86400, T + 7 * 86400] := by
  unfold generate_due_times
  rw [if_neg (by omega)]
  have h2 : (T + 7 * 86400 - T) / 86400 + 1 = 8 := by omega
  rw [h2]
  have h3 : List.range 8 = [0, 1, 2, 3, 4, 5, 6, 7] := by rfl
  rw [h3]
  norm_num [List.filter]

/-! ## Claims -/

/-- C1, counterexample.  As stated, the claim says the recurrence tests
accept the listing response iff it is HTTP 200 with at least 7 occurrences
*whose first element has `due_at = T`*.  Here the listing step accepts a
200 response with 7 occurrences although the first occurrence's `due_at`
(`"1999-01-01T00:00:00Z"`) differs from the task's anchor
`T = "2024-01-01T00:00:00Z"`: neither script inspects `due_at` at this
step, so the claimed equivalence is false. -/
theorem c1_counterexample :
    recurrence_listing_accepts 200
        (List.replicate 7 ⟨1, "1999-01-01T00:00:00Z"⟩) = true ∧
      (List.replicate 7 (⟨1, "1999-01-01T00:00:00Z"⟩ : Occurrence)).head?.map
          Occurrence.due_at ≠ some "2024-01-01T00:00:00Z" := by
  constructor
  · rfl
  · decide

/-- C1, amended.  The recurrence tests accept the listing response iff it is
HTTP 200 with at least 7 occurrences; the first element's `due_at` is not
checked by either script.  Separately, the spec-modelled occurrence
generator does satisfy window coverage: for a daily task anchored at
`due_at = T`, the window `[T, T + 7 days]` yields at least 7 occurrences
(in fact 8) and the first has `due_at = T`. -/
theorem c1_window_coverage_amended :
    (∀ (s : Nat) (occs : List Occurrence),
        recurrence_listing_accepts s occs = true ↔ s = 200 ∧ 7 ≤ occs.length) ∧
      ∀ T : Nat,
        7 ≤ (generate_due_times T 86400 T (T + 7 * 86400)).length ∧
          (generate_due_times T 86400 T (T + 7 * 86400)).head? = some T := by
  constructor
  · intro s occs
    simp [recurrence_listing_accepts]
  · intro T
    rw [generate_daily_eq]
    constructor
    · simp
    · rfl

/-- C2, counterexample.  As stated, the claim says the tests fail at the
completion step exactly when `completed_at` is null or `next_due_at` is
absent or *not strictly greater* than the completed occurrence's `due_at`.
Here the fetched `next_due_at` (`"2024-01-01T00:00:00Z"`) is strictly
*smaller* than the completed occurrence's
`due_at = "2024-01-02T00:00:00Z"` (third conjunct, in the chronological =
lexicographic order of the Z-suffixed RFC3339 format), yet both scripts'
completion steps pass, because the source checks `next_due_at` for
*inequality* (`assertNotEqual` / `==` guard), not for strict order: the
claimed equivalence is false. -/
theorem c2_counterexample :
    completion_step_accepts 200 (some "2024-01-01T00:10:00Z") 200
        (some "2024-01-01T00:00:00Z") "2024-01-02T00:00:00Z" = true ∧
      completion_step_accepts_runner 200 (some "2024-01-01T00:10:00Z") 200
        (some "2024-01-01T00:00:00Z") "2024-01-02T00:00:00Z" = true ∧
      rfc3339_lt "2024-01-01T00:00:00Z" "2024-01-02T00:00:00Z" = true := by
  refine ⟨rfl, rfl, by decide⟩

/-- C2, amended.  The completion step of `api_smoke_test_recurrence.py`
fails exactly when the PATCH status is not 200, or its `completed_at` is
null, or the task GET status is not 200, or the fetched `next_due_at` is
null or *equal* to the completed occurrence's `due_at` (inequality, not
strict order, is what the source checks); the `SmokeTestRunner.test_recurrence`
variant is identical except that an empty-string `next_due_at` also fails
(Python truthiness).  Separately, the spec-modelled engine does satisfy the
strict-increase property: completing the earliest occurrence of a daily
task anchored at `T` recomputes `next_due_at` to `T + 1 day > T`. -/
theorem c2_completion_amended :
    (∀ (ps : Nat) (ca : Option String) (gs : Nat) (nd : Option String) (due : String),
        completion_step_accepts ps ca gs nd due = true ↔
          ps = 200 ∧ ca ≠ none ∧ gs = 200 ∧ nd ≠ none ∧ nd ≠ some due) ∧
      (∀ (ps : Nat) (ca : Option String) (gs : Nat) (nd : Option String) (due : String),
        completion_step_accepts_runner ps ca gs nd due = true ↔
          ps = 200 ∧ ca ≠ none ∧ gs = 200 ∧ (∃ s, nd = some s ∧ s ≠ "") ∧
            nd ≠ some due) ∧
      ∀ T : Nat,
        recompute_next_due (complete_first (generate_due_times T 86400 T (T + 7 * 86400)))
            T = some (T + 86400) ∧ T < T + 86400 := by
  refine ⟨?_, ?_, ?_⟩
  · intro ps ca gs nd due
    simp [completion_step_accepts, Option.isSome_iff_ne_none, and_assoc]
  · intro ps ca gs nd due
    cases nd <;>
      simp [completion_step_accepts_runner, truthyStr, Option.isSome_iff_ne_none,
        and_assoc]
  · intro T
    rw [generate_daily_eq]
    constructor
    · norm_num [complete_first, recompute_next_due, List.filter]
    · omega

/-- C3, counterexample.  As stated, the claim says the suite checks both
access paths (listing and completion) under user B's token and fails
whenever either returns a status other than 404.  Here is a world in which
the completion path under B's token would return 200 (≠ 404), yet
`test_unauthorized_access` passes: the source issues only the listing
request with B's token and never a completion PATCH, so the claimed
equivalence is false. -/
theorem c3_counterexample :
    test_unauthorized_access ⟨404, 200⟩ = true := by
  rfl

/-- C3, amended.  `test_unauthorized_access` checks only the query
(occurrence-listing) path under user B's token: it passes iff that listing
returns 404, independently of what the completion path would return; the
completion path is never exercised under B's identity. -/
theorem c3_ownership_amended :
    ∀ w : WorldB, test_unauthorized_access w = true ↔ w.list_status_b = 404 := by
  intro w
  simp [test_unauthorized_access]

/-- C4.  `test_non_recurring_task_occurrences` fails exactly when the
creation status is not 201 or the subsequent occurrence-listing status
differs from 404 (assuming the 201 creation response carries an `id`, which
the test reads without asserting). -/
theorem c4_non_recurring_rejection :
    ∀ (cs : Nat) (cid : Option Nat) (ls : Nat), cid ≠ none →
      (test_non_recurring_task_occurrences cs cid ls = false ↔
        cs ≠ 201 ∨ ls ≠ 404) := by
  intro cs cid ls hcid
  obtain ⟨i, rfl⟩ := Option.ne_none_iff_exists'.mp hcid
  simp only [test_non_recurring_task_occurrences]
  by_cases h : cs = 201 <;> simp [h]

/-- C4, witness: creation 201 (with an id) followed by a 404 listing makes
the step pass. -/
theorem c4_witness :
    (some 5 : Option Nat) ≠ none ∧
      (test_non_recurring_task_occurrences 201 (some 5) 404 = false ↔
        (201 : Nat) ≠ 201 ∨ (404 : Nat) ≠ 404) :=
  ⟨by decide, c4_non_recurring_rejection 201 (some 5) 404 (by decide)⟩

/-- C5.  The first half of `test_invalid_recurrence_params` (create with
`repeat_every` set and `repeat_unit` omitted) fails exactly when the
response status differs from 400. -/
theorem c5_invalid_params :
    ∀ s : Nat, invalid_params_step s = false ↔ s ≠ 400 := by
  intro s
  simp [invalid_params_step]

/-- C6, counterexample.  As stated, the claim says the suite fails whenever
the server accepts the creation request with `repeat_unit = "decade"`.
Here the server accepts it with 201, yet the step passes: the source
(`api_smoke_test_recurrence.py` lines 145-151) issues the request but
contains no assertion on the response, so the claim is false. -/
theorem c6_counterexample :
    invalid_unit_step 201 = true := by
  rfl

/-- C6, amended.  The spec-modelled validation does reject a creation
request with `repeat_unit = "decade"` (together with `repeat_every` and
`due_at`) with status 400, but the test suite performs no assertion on this
request: the decade step passes whatever status the server returns, so the
suite never fails on it. -/
theorem c6_invalid_unit_amended :
    create_task_status (some "2024-01-01T00:00:00Z") (some 1) (some "decade") = 400 ∧
      ∀ s : Nat, invalid_unit_step s = true := by
  exact ⟨rfl, fun _ => rfl⟩

/-- C7.  For every task id and every combination of supplied (non-empty)
`from_time`/`to_time` arguments, `GoToDoAPI.list_occurrences` issues a GET
to `/api/v1/tasks/{task_id}/occurrences`, appending a query string with a
`from={from_time}` component and then a `to={to_time}` component, each
present exactly when the corresponding argument is supplied, and no query
string when neither is supplied. -/
theorem c7_list_occurrences_request :
    ∀ (tid : Nat) (ft tt : Option String),
      (∀ s, ft = some s → s ≠ "") → (∀ s, tt = some s → s ≠ "") →
      list_occurrences_request tid ft tt =
        ("GET", "/api/v1/tasks/" ++ toString tid ++ "/occurrences" ++
          match ft, tt with
          | some f, some t => "?from=" ++ f ++ "&to=" ++ t
          | some f, none => "?from=" ++ f
          | none, some t => "?to=" ++ t
          | none, none => "") := by
  intro tid ft tt hf ht
  cases ft with
  | none =>
    cases tt with
    | none => simp [list_occurrences_request, truthyStr]
    | some t =>
      have ht' := ht t rfl
      simp [list_occurrences_request, truthyStr, ht', joinAmp, String.append_assoc]
      rfl
  | some f =>
    have hf' := hf f rfl
    cases tt with
    | none =>
      simp [list_occurrences_request, truthyStr, hf', joinAmp, String.append_assoc]
      rfl
    | some t =>
      have ht' := ht t rfl
      simp [list_occurrences_request, truthyStr, hf', ht', joinAmp,
        String.append_assoc]
      rfl

/-- C8.  `expect_status` raises `TestFailure` (returns `some msg`) iff
`resp.status ≠ expected`; the raised message contains the label, the
expected status, the actual status, and the response body decoded with
replacement of invalid bytes.  When it does not raise it returns `None`;
the function is pure, so it changes no state. -/
theorem c8_expect_status :
    ∀ (resp : Smoke.HTTPResponse) (expected : Nat) (label : String),
      (expect_status resp expected label = none ↔ resp.status = expected) ∧
      ∀ msg, expect_status resp expected label = some msg →
        contains_str msg label ∧ contains_str msg (toString expected) ∧
        contains_str msg (toString resp.status) ∧
        contains_str msg (decodeUtf8Replace resp.body_bytes) := by
  intro resp expected label
  constructor
  · unfold expect_status
    split <;> simp_all
  · intro msg h
    unfold expect_status at h
    split at h
    case isTrue hne =>
      injection h with h
      subst h
      refine ⟨⟨"", ": expected HTTP " ++ toString expected ++ ", got " ++
          toString resp.status ++ ". Body: " ++ decodeUtf8Replace resp.body_bytes, ?_⟩,
        ⟨label ++ ": expected HTTP ", ", got " ++ toString resp.status ++
          ". Body: " ++ decodeUtf8Replace resp.body_bytes, ?_⟩,
        ⟨label ++ ": expected HTTP " ++ toString expected ++ ", got ",
          ". Body: " ++ decodeUtf8Replace resp.body_bytes, ?_⟩,
        ⟨label ++ ": expected HTTP " ++ toString expected ++ ", got " ++
          toString resp.status ++ ". Body: ", "", ?_⟩⟩ <;>
        simp [String.append_assoc]
    case isFalse hne =>
      exact absurd h (by simp)

/-- C8, witness: a 404 response against expected 200, with body bytes
decoding to `"Hi"`. -/
theorem c8_witness :
    (expect_status ⟨404, [], [72, 105]⟩ 200 "GET /health" = none ↔ (404 : Nat) = 200) ∧
      contains_str "GET /health: expected HTTP 200, got 404. Body: Hi" "GET /health" ∧
      contains_str "GET /health: expected HTTP 200, got 404. Body: Hi"
        (toString (200 : Nat)) ∧
      contains_str "GET /health: expected HTTP 200, got 404. Body: Hi"
        (toString (404 : Nat)) ∧
      contains_str "GET /health: expected HTTP 200, got 404. Body: Hi"
        (decodeUtf8Replace [72, 105]) :=
  ⟨(c8_expect_status ⟨404, [], [72, 105]⟩ 200 "GET /health").1,
    (c8_expect_status ⟨404, [], [72, 105]⟩ 200 "GET /health").2
      "GET /health: expected HTTP 200, got 404. Body: Hi" (by rfl)⟩

/-- C9, counterexample.  As stated, the claim says `HttpClient.request` of
`api_smoke_test_recurrence.py` never propagates an exception.  But when
`urlopen` raises an `HTTPError` whose body bytes are not valid UTF-8 (here
the single byte `0xFF`), the handler's `e.read().decode("utf-8")` raises a
`UnicodeDecodeError` *inside the `except HTTPError` block*, where the
trailing `except Exception` does not apply, so the exception propagates out
of `request`: the claim is false. -/
theorem c9_counterexample :
    Rec.HttpClient.request ⟨"http://localhost:8080"⟩ "GET"
        "/api/v1/tasks/1/occurrences" (some "token-a") none
        (.httpError 404 [0xFF]) =
      .error (.unicodeDecodeError [0xFF]) := by
  rfl

/-- C9, amended.  `HttpClient.request` returns an `HTTPResponse` without
propagating an exception for every outcome of the `urlopen` call *except*
one: an `HTTPError` whose body bytes are not valid UTF-8, in which case the
`UnicodeDecodeError` raised in the `except HTTPError` handler propagates.
In all non-propagating cases the claimed mapping holds: a success returns
`(status, body)` (or `(0, str(e))` if the success body fails to decode,
since that exception is raised inside the `try` and caught by
`except Exception`), an `HTTPError` with decodable body returns
`(e.code, body)`, and any other exception returns `(0, str(e))`. -/
theorem c9_request_totality_amended :
    ∀ (c : Rec.HttpClient) (m p : String) (tk : Option String) (b : Option Json),
      (∀ o : Rec.UrlOutcome,
        (∃ e, Rec.HttpClient.request c m p tk b o = .error e) ↔
          ∃ code bytes, o = .httpError code bytes ∧ decodeUtf8Strict bytes = none) ∧
      (∀ s bytes body, decodeUtf8Strict bytes = some body →
        Rec.HttpClient.request c m p tk b (.success s bytes) = .ok ⟨s, body⟩) ∧
      (∀ s bytes, decodeUtf8Strict bytes = none →
        Rec.HttpClient.request c m p tk b (.success s bytes) =
          .ok ⟨0, pyStr (.unicodeDecodeError bytes)⟩) ∧
      (∀ code bytes body, decodeUtf8Strict bytes = some body →
        Rec.HttpClient.request c m p tk b (.httpError code bytes) = .ok ⟨code, body⟩) ∧
      (∀ msg, Rec.HttpClient.request c m p tk b (.otherError msg) = .ok ⟨0, msg⟩) := by
  intro c m p tk b
  refine ⟨?_, ?_, ?_, ?_, ?_⟩
  · intro o
    cases o with
    | success s bytes =>
      cases hd : decodeUtf8Strict bytes <;> simp [Rec.HttpClient.request, hd]
    | httpError code bytes =>
      cases hd : decodeUtf8Strict bytes with
      | none =>
        refine Iff.intro (fun _ => ⟨code, bytes, rfl, hd⟩) (fun _ => ?_)
        exact ⟨.unicodeDecodeError bytes, by simp [Rec.HttpClient.request, hd]⟩
      | some body => simp [Rec.HttpClient.request, hd]
    | otherError msg => simp [Rec.HttpClient.request]
  · intro s bytes body hd
    simp [Rec.HttpClient.request, hd]
  · intro s bytes hd
    simp [Rec.HttpClient.request, hd]
  · intro code bytes body hd
    simp [Rec.HttpClient.request, hd]
  · intro msg
    rfl

/-- C9, witness for the amended theorem: an `HTTPError` with the decodable
body byte `72` (`"H"`) returns `(500, "H")`, and a non-HTTP exception
rendered `"timed out"` returns `(0, "timed out")`. -/
theorem c9_witness :
    Rec.HttpClient.request ⟨"http://localhost:8080"⟩ "GET" "/api/v1/health"
        none none (.httpError 500 [72]) = .ok ⟨500, "H"⟩ ∧
      Rec.HttpClient.request ⟨"http://localhost:8080"⟩ "GET" "/api/v1/health"
        none none (.otherError "timed out") = .ok ⟨0, "timed out"⟩ :=
  ⟨(c9_request_totality_amended ⟨"http://localhost:8080"⟩ "GET" "/api/v1/health"
      none none).2.2.2.1 500 [72] "H" (by rfl),
    (c9_request_totality_amended ⟨"http://localhost:8080"⟩ "GET" "/api/v1/health"
      none none).2.2.2.2 "timed out"⟩

/-- C10.  In both scripts, `GoToDoAPI.list_occurrences` treats an
empty-string `from_time` or `to_time` exactly like an omitted argument
(Python truthiness), so a caller can never issue an explicit empty `from=`
or `to=` query parameter. -/
theorem c10_empty_string_as_omitted :
    ∀ (tid : Nat) (ft tt : Option String),
      list_occurrences_request tid (some "") tt = list_occurrences_request tid none tt ∧
        list_occurrences_request tid ft (some "") =
          list_occurrences_request tid ft none := by
  intro tid ft tt
  constructor <;> simp [list_occurrences_request, truthyStr]

/-- C7, witness: both parameters supplied, at concrete values. -/
theorem c7_witness :
    (∀ s : String, (some "2024-01-01T00:00:00Z" : Option String) = some s → s ≠ "") ∧
      (∀ s : String, (some "2024-01-08T00:00:00Z" : Option String) = some s → s ≠ "") ∧
      list_occurrences_request 7 (some "2024-01-01T00:00:00Z")
          (some "2024-01-08T00:00:00Z") =
        ("GET", "/api/v1/tasks/" ++ toString 7 ++ "/occurrences" ++
          ("?from=" ++ "2024-01-01T00:00:00Z" ++ "&to=" ++ "2024-01-08T00:00:00Z")) :=
  ⟨fun s hs => by injection hs with h; subst h; decide,
    fun s hs => by injection hs with h; subst h; decide,
    c7_list_occurrences_request 7 (some "2024-01-01T00:00:00Z")
      (some "2024-01-08T00:00:00Z")
      (fun s hs => by injection hs with h; subst h; decide)
      (fun s hs => by injection hs with h; subst h; decide)⟩

end GoTodo
